import Mathlib

/-!
Shallow embedding of the grablin CLI's authentication, validation, config
store and generation-orchestration code, together with theorems settling
the specification's claims about it.

Sources embedded:
  * auth module (`getToken`, `hasToken`, `getAuthHeaders`, `getGitHubUser`)
  * `src/smartpump/src/lib/config.ts`
    (`validateConfig`, `validateModule`, `saveConfig`, `loadConfig`)
  * the generation orchestrator `generate` (modelled from the spec; its
    source file is not present in the repository snapshot).

JavaScript strings are modelled as Lean `String` (all the relevant data is
ASCII, where JS UTF-16 length and Lean codepoint length agree), thrown
exceptions as `Except`, `undefined`/missing fields as `Option`, and the
network as an oracle function supplied explicitly.
-/

namespace Grablin

/-! ### Generic list/string helpers (JS `includes`, `endsWith`, `split`) -/

/-- `listPrefixOf n h` is true when the list `n` is an initial segment of `h`. -/
def listPrefixOf : List Char → List Char → Bool
  | [], _ => true
  | _ :: _, [] => false
  | a :: as, b :: bs => a == b && listPrefixOf as bs

/-- `listInfixOf n h` is true when `n` occurs contiguously inside `h`;
this models JavaScript's `String.prototype.includes`. -/
def listInfixOf (n : List Char) : List Char → Bool
  | [] => n.isEmpty
  | c :: t => listPrefixOf n (c :: t) || listInfixOf n t

/-- `strIncludes hay needle` models JavaScript `hay.includes(needle)`. -/
def strIncludes (hay needle : String) : Bool :=
  listInfixOf needle.toList hay.toList

/-- Models JavaScript `s.endsWith(suffix)`. -/
def jsEndsWith (s suffix : String) : Bool :=
  listPrefixOf suffix.toList.reverse s.toList.reverse

/-- Models JavaScript `s.split(sep)` for a single-character separator:
the result always has at least one (possibly empty) part. -/
def splitOnChar (sep : Char) : List Char → List (List Char)
  | [] => [[]]
  | c :: rest =>
    let r := splitOnChar sep rest
    if c == sep then [] :: r
    else
      match r with
      | [] => [[c]]
      | h :: t => (c :: h) :: t

/-! ### ASCII character classes used by the validation regexes -/

def isAsciiLowerCh (c : Char) : Bool := 97 ≤ c.toNat && c.toNat ≤ 122

def isAsciiUpperCh (c : Char) : Bool := 65 ≤ c.toNat && c.toNat ≤ 90

def isAsciiDigitCh (c : Char) : Bool := 48 ≤ c.toNat && c.toNat ≤ 57

def isAsciiLetterCh (c : Char) : Bool := isAsciiLowerCh c || isAsciiUpperCh c

def isAsciiAlnumCh (c : Char) : Bool := isAsciiLetterCh c || isAsciiDigitCh c

/-! ### Credential Resolver (auth module) -/

/-- The process environment restricted to the two credential variables.
`none` models an unset variable; `some ""` a variable set to the empty
string (falsy in JavaScript, like `undefined`). -/
structure Env where
  githubToken : Option String
  ghToken : Option String
deriving DecidableEq

/-- JavaScript truthiness of an optional string: set and non-empty. -/
def envTruthy : Option String → Bool
  | none => false
  | some s => !s.isEmpty

/-- `process.env.GITHUB_TOKEN || process.env.GH_TOKEN`: the primary value
when truthy, otherwise the raw secondary value. -/
def tokenOr (env : Env) : Option String :=
  if envTruthy env.githubToken then env.githubToken else env.ghToken

/-- The `AuthError` exception class: carries only its message. -/
structure AuthError where
  message : String
deriving DecidableEq

/-- The literal remediation message thrown by `getToken`. -/
def authMessage : String :=
  "GitHub token required. Set GITHUB_TOKEN or GH_TOKEN environment variable.\nCreate a token at: https://github.com/settings/tokens"

/-- `getToken`: returns `GITHUB_TOKEN || GH_TOKEN` when truthy, otherwise
throws `AuthError` with the remediation message. -/
def getToken (env : Env) : Except AuthError String :=
  let token := tokenOr env
  if !envTruthy token then .error ⟨authMessage⟩
  else .ok (token.getD "")

/-- `hasToken`: `!!(process.env.GITHUB_TOKEN || process.env.GH_TOKEN)`. -/
def hasToken (env : Env) : Bool :=
  envTruthy (tokenOr env)

/-- `getAuthHeaders`: `{ Authorization: "Bearer " ++ token }`, propagating
`getToken`'s `AuthError`.  A header record is a list of key/value pairs. -/
def getAuthHeaders (env : Env) : Except AuthError (List (String × String)) :=
  (getToken env).map (fun token => [("Authorization", "Bearer " ++ token)])

/-- The identity payload `{login, name?, email?, id}`. -/
structure GitHubUser where
  login : String
  name : Option String
  email : Option String
  id : Nat
deriving DecidableEq

/-- The outcome of the `response.json()` promise on a 2xx response:
either it resolves to a parsed identity payload, or the body is not valid
JSON and the promise rejects with a parse-error message. -/
inductive JsonBody where
  | parsed (user : GitHubUser)
  | malformed (msg : String)
deriving DecidableEq

/-- One observed outcome of a `fetch` of the identity endpoint:
a 2xx (`response.ok`) together with the outcome of parsing its body, a
non-ok response with its status code, or a rejected promise (transport
error). -/
inductive FetchResult where
  | ok (body : JsonBody)
  | status (code : Nat)
  | throw
deriving DecidableEq

/-- An error with which the promise returned by `getGitHubUser` can
reject: a thrown `AuthError`, or the rejection of the un-awaited
`response.json()` promise returned from inside the `try` block. -/
inductive GhError where
  | authError (e : AuthError)
  | jsonError (msg : String)
deriving DecidableEq

instance exceptDecEq {ε α : Type} [DecidableEq ε] [DecidableEq α] :
    DecidableEq (Except ε α) := fun a b =>
  match a, b with
  | .error e, .error f =>
    if h : e = f then .isTrue (by rw [h])
    else .isFalse (fun hh => h (by injection hh))
  | .ok x, .ok y =>
    if h : x = y then .isTrue (by rw [h])
    else .isFalse (fun hh => h (by injection hh))
  | .error _, .ok _ => .isFalse (fun hh => Except.noConfusion hh)
  | .ok _, .error _ => .isFalse (fun hh => Except.noConfusion hh)

/-- The observable trace of one `getGitHubUser` run: its returned value
(`Except` because a JS async function can reject — and this one can: the
`try` block returns the `response.json()` promise without awaiting it, so
that promise's rejection escapes the `catch`), the number of `fetch`
calls performed, and the sequence of backoff waits (in ms) actually
slept. -/
structure GhRun where
  result : Except GhError (Option GitHubUser)
  calls : Nat
  delays : List Nat
deriving DecidableEq

/-- `baseDelay` of the retry loop, in milliseconds. -/
def baseDelay : Nat := 1000

/-- The retry loop of `getGitHubUser`, one iteration per attempt.
`attempt` is the loop counter; `remaining` the iterations left
(`maxRetries - attempt`; the loop is entered with `remaining = 3`).
Each iteration evaluates `getAuthHeaders()` then `fetch` inside `try`;
a thrown `AuthError` or a rejected `fetch` is caught and handled like a
5xx: sleep `baseDelay * 2^attempt` if another attempt follows
(`attempt < maxRetries - 1`, i.e. `remaining > 1`), then continue.
A 4xx returns `none` at once.  On a 2xx the code returns the
`response.json()` promise *without awaiting it*, so a rejection of that
promise (a malformed body) is NOT caught: the whole call rejects, which
the model records as `.error (.jsonError msg)`.  Falling out of the loop
returns `none`.

`withBackoff` is the shared retry continuation: count `extraCall` fetches,
sleep `baseDelay * 2^attempt` when a further attempt follows (`0 < r`),
and continue with the rest of the loop's trace. -/
def withBackoff (attempt r extraCall : Nat)
    (next : Except GhError (Option GitHubUser) × Nat × List Nat) :
    Except GhError (Option GitHubUser) × Nat × List Nat :=
  (next.1, next.2.1 + extraCall,
    (if 0 < r then [baseDelay * 2 ^ attempt] else []) ++ next.2.2)

def ghLoop (env : Env) (oracle : Nat → FetchResult) :
    Nat → Nat → Except GhError (Option GitHubUser) × Nat × List Nat
  | _, 0 => (.ok none, 0, [])
  | attempt, r + 1 =>
    match getAuthHeaders env with
    | .error _ => withBackoff attempt r 0 (ghLoop env oracle (attempt + 1) r)
    | .ok _ =>
      match oracle attempt with
      | .ok (.parsed u) => (.ok (some u), 1, [])
      | .ok (.malformed msg) => (.error (.jsonError msg), 1, [])
      | .status code =>
        if 400 ≤ code && code < 500 then (.ok none, 1, [])
        else withBackoff attempt r 1 (ghLoop env oracle (attempt + 1) r)
      | .throw => withBackoff attempt r 1 (ghLoop env oracle (attempt + 1) r)

/-- `getGitHubUser`: returns `none` with no network call when `hasToken`
is false, otherwise runs the retry loop (`maxRetries = 3`). -/
def getGitHubUser (env : Env) (oracle : Nat → FetchResult) : GhRun :=
  if hasToken env then
    let (res, c, d) := ghLoop env oracle 0 3
    ⟨res, c, d⟩
  else ⟨.ok none, 0, []⟩

/-- A response on which the code's loop tries again per the spec's
wording: a 5xx status or a thrown transport error. -/
def retry5xx : FetchResult → Bool
  | .status code => 500 ≤ code
  | .throw => true
  | .ok _ => false

/-- A response that is not a 2xx success (4xx, 5xx, or transport error). -/
def notSuccess : FetchResult → Bool
  | .ok _ => false
  | _ => true

/-- A 2xx response whose body fails JSON parsing — the one response on
which `getGitHubUser` rejects rather than returning. -/
def malformedOk : FetchResult → Bool
  | .ok (.malformed _) => true
  | _ => false

/-! ### Schema Validator (`src/smartpump/src/lib/config.ts`) -/

/-- A JSON value, as produced by `JSON.parse` / consumed by
`JSON.stringify`. -/
inductive Json where
  | str (s : String)
  | num (n : Int)
  | bool (b : Bool)
  | null
  | arr (xs : List Json)
  | obj (fields : List (String × Json))

/-- `ModuleConfig`: one entry of `config.modules`.  `kind` and the other
required string fields use `""` to model a missing/falsy value (the
JavaScript checks `!module.kind` etc. do not distinguish the two). -/
structure ModuleConfig where
  kind : String
  type : String
  moduleId : String
  layers : Option (List String)
  fieldValues : Option (List (String × Json))

/-- `GrablinConfig` (`ProjectConfig` plus an optional `version`).
`modules`/`environments` are `none` when absent or not an array. -/
structure GrablinConfig where
  projectName : String
  description : Option String
  domain : String
  owner : String
  modules : Option (List ModuleConfig)
  environments : Option (List String)
  provider : Option String
  vcs : Option String
  version : Option String

/-- `ValidationResult` as in `config.ts`. -/
structure ValidationResult where
  valid : Bool
  errors : List String
  warnings : List String

/-- The regex `^[a-zA-Z][a-zA-Z0-9-_]{0,99}$` for `projectName`. -/
def isValidProjectName (s : String) : Bool :=
  match s.toList with
  | [] => false
  | c :: rest =>
    isAsciiLetterCh c && rest.length ≤ 99 &&
      rest.all (fun d => isAsciiLetterCh d || isAsciiDigitCh d || d == '-' || d == '_')

/-- One non-final label of the domain regex (case-insensitive):
`[a-z0-9](?:[a-z0-9-]{0,61}[a-z0-9])?`. -/
def isDomainLabel : List Char → Bool
  | [] => false
  | c :: rest =>
    isAsciiAlnumCh c &&
      (rest.isEmpty ||
        (rest.length ≤ 62 &&
          rest.all (fun d => isAsciiAlnumCh d || d == '-') &&
          isAsciiAlnumCh (rest.getLastD ' ')))

/-- The final label of the domain regex: `[a-z]{2,24}` (case-insensitive). -/
def isDomainTld (l : List Char) : Bool :=
  2 ≤ l.length && l.length ≤ 24 && l.all isAsciiLetterCh

/-- The domain regex `/^(?:[a-z0-9](?:[a-z0-9-]{0,61}[a-z0-9])?\.)+[a-z]{2,24}$/i`:
at least one dot; every dot-separated part but the last is a label, the
last is a TLD. -/
def isValidDomain (s : String) : Bool :=
  let parts := splitOnChar '.' s.toList
  2 ≤ parts.length && parts.dropLast.all isDomainLabel &&
    isDomainTld (parts.getLastD [])

/-- The local-part character class of the `owner` email regex. -/
def isEmailLocalChar (c : Char) : Bool :=
  isAsciiAlnumCh c || c == '.' || c == '!' || c == '#' || c == '$' ||
    c == '%' || c == '&' || c.toNat == 39 || c == '*' || c == '+' ||
    c == '/' || c == '=' || c == '?' || c == '^' || c == '_' ||
    c.toNat == 96 || c.toNat == 123 || c == '|' || c.toNat == 125 ||
    c == '~' || c == '-'

/-- A hostname label of the email regex:
`[a-zA-Z0-9](?:[a-zA-Z0-9-]{0,61}[a-zA-Z0-9])?`. -/
def isEmailHostLabel : List Char → Bool
  | [] => false
  | c :: rest =>
    isAsciiAlnumCh c &&
      (rest.isEmpty ||
        (rest.length ≤ 62 &&
          rest.all (fun d => isAsciiAlnumCh d || d == '-') &&
          isAsciiAlnumCh (rest.getLastD ' ')))

/-- The `owner` email regex: one `@`, a non-empty local part over
`isEmailLocalChar`, and a dot-separated sequence of host labels. -/
def isValidOwnerEmail (s : String) : Bool :=
  match splitOnChar '@' s.toList with
  | [localPart, hostPart] =>
    !localPart.isEmpty && localPart.all isEmailLocalChar &&
      (splitOnChar '.' hostPart).all isEmailHostLabel
  | _ => false

/-- The `projectName` checks of `validateConfig` (missing, then grammar). -/
def projectNameErrors (c : GrablinConfig) : List String :=
  if c.projectName = "" then ["projectName is required"]
  else if !isValidProjectName c.projectName then
    ["projectName must start with a letter, contain only letters, numbers, hyphens, and underscores, and be 1-100 chars"]
  else []

/-- The `domain` checks of `validateConfig`: an `else if` chain — missing,
grammar, overall length, label length — so at most one error is produced. -/
def domainErrors (c : GrablinConfig) : List String :=
  if c.domain = "" then ["domain is required"]
  else if !isValidDomain c.domain then
    ["domain must be a valid domain name (e.g., myapp.com, api.myapp.io)"]
  else if 253 < c.domain.length then
    ["domain name too long (max 253 characters)"]
  else if (splitOnChar '.' c.domain.toList).any (fun label => 63 < label.length) then
    ["domain label too long (max 63 characters per label)"]
  else []

/-- The `owner` checks of `validateConfig` (missing, grammar, length). -/
def ownerErrors (c : GrablinConfig) : List String :=
  if c.owner = "" then ["owner email is required"]
  else if !isValidOwnerEmail c.owner then
    ["owner must be a valid email address"]
  else if 254 < c.owner.length then
    ["email address too long (max 254 characters)"]
  else []

/-- The `modules[${index}]` prefix of per-module error messages. -/
def modulePrefix (index : Nat) : String :=
  "modules[" ++ toString index ++ "]"

/-- The `moduleId` regex `^[a-z][a-z0-9-]{0,99}$`. -/
def isValidModuleId (s : String) : Bool :=
  match s.toList with
  | [] => false
  | c :: rest =>
    isAsciiLowerCh c && rest.length ≤ 99 &&
      rest.all (fun d => isAsciiLowerCh d || isAsciiDigitCh d || d == '-')

/-- `validateModule(module, index)`: kind, type and moduleId checks, in
source order; the moduleId checks form an `else if` chain. -/
def validateModule (m : ModuleConfig) (index : Nat) : List String :=
  (if m.kind = "" then
    [modulePrefix index ++ ".kind is required (code, extension, provider, vcs)"]
  else if !(["code", "extension", "provider", "vcs"].contains m.kind) then
    [modulePrefix index ++ ".kind must be one of: code, extension, provider, vcs"]
  else []) ++
  (if m.type = "" then [modulePrefix index ++ ".type is required"] else []) ++
  (if m.moduleId = "" then [modulePrefix index ++ ".moduleId is required"]
  else if !isValidModuleId m.moduleId then
    [modulePrefix index ++ ".moduleId must be lowercase, start with a letter, use hyphens only, and be 1-100 chars"]
  else if jsEndsWith m.moduleId "-" || strIncludes m.moduleId "--" then
    [modulePrefix index ++ ".moduleId cannot end with hyphen or contain consecutive hyphens"]
  else [])

/-- The `modules` block of `validateConfig`: returns the errors and the
warnings it contributes. -/
def modulesChecks (c : GrablinConfig) : List String × List String :=
  match c.modules with
  | none => (["modules array is required"], [])
  | some [] => ([], ["No modules specified - project will be empty"])
  | some ms =>
    (ms.enum.flatMap (fun p => validateModule p.2 p.1),
      if (ms.filter (fun m => m.kind == "code")).isEmpty then
        ["No code modules (frontend/backend) specified"]
      else [])

/-- The `environments` block of `validateConfig` (warning only). -/
def environmentsWarnings (c : GrablinConfig) : List String :=
  match c.environments with
  | none => ["No environments specified, using defaults (dev, staging, prod)"]
  | some _ => []

/-- `validateConfig`, assembling the blocks in source push order. -/
def validateConfig (c : GrablinConfig) : ValidationResult :=
  let errors := projectNameErrors c ++ domainErrors c ++ ownerErrors c ++
    (modulesChecks c).1
  let warnings := (modulesChecks c).2 ++ environmentsWarnings c
  ⟨errors.isEmpty, errors, warnings⟩

/-! ### Config Store (`loadConfig` / `saveConfig`)

The file system is modelled at the JSON level: a map from resolved path to
the parsed document (`JSON.parse (JSON.stringify v)` is the identity on
the cycle-free values written here, so the string serialization layer is
transparent to these claims).  Path resolution to an absolute path is
modelled as the identity. -/

/-- The file-system model: resolved path to stored JSON document. -/
def FileStore : Type := String → Option Json

/-- `getConfigPath` / the `filePath` defaulting in `loadConfig`/`saveConfig`:
`configPath || 'grablin.json'`. -/
def getConfigPath (configOption : Option String) : String :=
  match configOption with
  | none => "grablin.json"
  | some p => if p = "" then "grablin.json" else p

/-- JSON encoding of one `ModuleConfig` (optional fields omitted when
absent, as `JSON.stringify` drops `undefined`). -/
def encodeModule (m : ModuleConfig) : Json :=
  .obj ([("kind", .str m.kind), ("type", .str m.type),
    ("moduleId", .str m.moduleId)] ++
    (match m.layers with
      | none => []
      | some ls => [("layers", .arr (ls.map .str))]) ++
    (match m.fieldValues with
      | none => []
      | some fv => [("fieldValues", .obj fv)]))

/-- JSON encoding of the document written by `saveConfig`: the object
`{version: '1.0', ...config}` — `version` first (the caller's value wins
when present), then the config's own fields, optional ones omitted. -/
def encodeConfigWithVersion (c : GrablinConfig) : Json :=
  .obj ([("version", .str (c.version.getD "1.0")),
    ("projectName", .str c.projectName)] ++
    (match c.description with
      | none => []
      | some d => [("description", .str d)]) ++
    [("domain", .str c.domain), ("owner", .str c.owner)] ++
    (match c.modules with
      | none => []
      | some ms => [("modules", .arr (ms.map encodeModule))]) ++
    (match c.environments with
      | none => []
      | some es => [("environments", .arr (es.map .str))]) ++
    (match c.provider with
      | none => []
      | some p => [("provider", .str p)]) ++
    (match c.vcs with
      | none => []
      | some v => [("vcs", .str v)]))

/-- Property lookup on a parsed JSON document. -/
def lookupField (j : Json) (key : String) : Option Json :=
  match j with
  | .obj fields => fields.lookup key
  | _ => none

/-- `saveConfig(config, configPath?)`: stamps `version: '1.0'` underneath
the caller's fields and writes the document to the resolved path,
returning the updated store and the path written. -/
def saveConfig (c : GrablinConfig) (configPath : Option String)
    (fs : FileStore) : FileStore × String :=
  let absolutePath := getConfigPath configPath
  (fun q => if q = absolutePath then some (encodeConfigWithVersion c) else fs q,
    absolutePath)

/-- `loadConfig(configPath?)`: `none` when the resolved path does not
exist, otherwise the parsed document (the cast `as GrablinConfig`
performs no validation, so the raw document is returned). -/
def loadConfig (configPath : Option String) (fs : FileStore) : Option Json :=
  fs (getConfigPath configPath)

/-! ### Generation Orchestrator (`generate`)

Modelled from the spec: the source file `src/lib/generator.ts` is not
present in the repository snapshot (only its tests and callers are), so
`generate` is reconstructed from the specification's algorithm: (1) fail
fast, with the Credential Resolver's `AuthError` message verbatim and no
network call, when no credential is available; (2) fail with
"No output option specified" when neither output mode is set; (3–6) POST
once to the generation endpoint and map the response to an outcome. -/

/-- `GenerationOutcome`: the discriminated result of a `generate` run. -/
inductive GenerationOutcome where
  | success (fileCount : Nat) (outputPath : Option String)
      (repoUrl : Option String) (cloneCommand : Option String)
  | failure (error : String)
deriving DecidableEq

/-- The options record accepted by `generate`. -/
structure GenerateOptions where
  config : GrablinConfig
  apiUrl : Option String
  output : Option String
  pushToGithub : Bool
  repoName : Option String
  isPrivate : Bool
  verbose : Bool

/-- The response of the single generation POST, as observed by
`generate`: a JSON body, a binary archive, a non-2xx status with body
text, or a thrown transport error. -/
inductive GenNetResult where
  | jsonBody (success : Bool) (fileCount : Nat) (repoUrl : Option String)
      (cloneCommand : Option String) (error : Option String)
  | binaryBody
  | httpError (status : Nat) (body : String)
  | netThrow (message : String)

/-- Modelled from the spec: response mapping of `generate` (spec §4.4
steps 5–6). -/
def mapGenResponse (opts : GenerateOptions) : GenNetResult → GenerationOutcome
  | .httpError status body =>
    .failure ("API error (" ++ toString status ++ "): " ++ body)
  | .netThrow message => .failure message
  | .binaryBody => .success 0 opts.output none none
  | .jsonBody ok fileCount repoUrl cloneCommand err =>
    if ok then .success fileCount opts.output repoUrl cloneCommand
    else .failure (err.getD "")

/-- Modelled from the spec: `generate(options)` (spec §4.4).  The missing
source is `src/lib/generator.ts`.  Returns the outcome together with the
number of network calls performed. -/
def generate (opts : GenerateOptions) (env : Env) (net : GenNetResult) :
    GenerationOutcome × Nat :=
  match getToken env with
  | .error e => (.failure e.message, 0)
  | .ok _ =>
    if opts.output = none && !opts.pushToGithub then
      (.failure "No output option specified", 0)
    else (mapGenResponse opts net, 1)

/-! ### Helper lemmas -/

theorem getToken_ok_of_hasToken (env : Env) (h : hasToken env = true) :
    getToken env = .ok ((tokenOr env).getD "") := by
  unfold getToken
  unfold hasToken at h
  simp [h]

theorem getToken_error_of_not_hasToken (env : Env) (h : hasToken env = false) :
    getToken env = .error ⟨authMessage⟩ := by
  unfold getToken
  unfold hasToken at h
  simp [h]

theorem getAuthHeaders_ok_of_hasToken (env : Env) (h : hasToken env = true) :
    getAuthHeaders env =
      .ok [("Authorization", "Bearer " ++ (tokenOr env).getD "")] := by
  unfold getAuthHeaders
  rw [getToken_ok_of_hasToken env h]
  rfl

theorem getGitHubUser_eq_loop (env : Env) (oracle : Nat → FetchResult)
    (h : hasToken env = true) :
    getGitHubUser env oracle =
      ⟨(ghLoop env oracle 0 3).1, (ghLoop env oracle 0 3).2.1,
        (ghLoop env oracle 0 3).2.2⟩ := by
  unfold getGitHubUser
  rw [h]
  simp

theorem ghLoop_retry_step (env : Env) (oracle : Nat → FetchResult)
    (a r : Nat) (h : hasToken env = true) (hr : retry5xx (oracle a) = true) :
    ghLoop env oracle a (r + 1) =
      withBackoff a r 1 (ghLoop env oracle (a + 1) r) := by
  conv_lhs => unfold ghLoop
  rw [getAuthHeaders_ok_of_hasToken env h]
  cases ho : oracle a with
  | ok body => rw [ho] at hr; simp [retry5xx] at hr
  | throw => simp [ho]
  | status code =>
    have h5 : 500 ≤ code := by rw [ho] at hr; simpa [retry5xx] using hr
    have hcp : ¬(400 ≤ code ∧ code < 500) := by omega
    simp [ho, hcp]

theorem ghLoop_none_of_notSuccess (env : Env) (oracle : Nat → FetchResult)
    (hna : ∀ i, notSuccess (oracle i) = true) :
    ∀ r a, (ghLoop env oracle a r).1 = .ok none := by
  intro r
  induction r with
  | zero => intro a; rfl
  | succ n ih =>
    intro a
    unfold ghLoop
    cases hh : getAuthHeaders env with
    | error e => simp [withBackoff, ih]
    | ok x =>
      cases ho : oracle a with
      | ok body => have := hna a; rw [ho] at this; simp [notSuccess] at this
      | throw => simp [withBackoff, ih]
      | status code =>
        by_cases hc : (400 ≤ code && code < 500) = true
        · simp [hc]
        · simp only [Bool.not_eq_true] at hc
          simp [hc, withBackoff, ih]

theorem ghLoop_ok_of_no_malformed (env : Env) (oracle : Nat → FetchResult)
    (hm : ∀ i, malformedOk (oracle i) = false) :
    ∀ r a, ∃ v, (ghLoop env oracle a r).1 = .ok v := by
  intro r
  induction r with
  | zero => exact fun a => ⟨none, rfl⟩
  | succ n ih =>
    intro a
    unfold ghLoop
    cases hh : getAuthHeaders env with
    | error e => simpa [withBackoff] using ih (a + 1)
    | ok x =>
      cases ho : oracle a with
      | ok body =>
        cases body with
        | parsed u => exact ⟨some u, rfl⟩
        | malformed msg =>
          have := hm a
          rw [ho] at this
          simp [malformedOk] at this
      | throw => simpa [withBackoff] using ih (a + 1)
      | status code =>
        by_cases hc : (400 ≤ code && code < 500) = true
        · exact ⟨none, by simp [hc]⟩
        · simp only [Bool.not_eq_true] at hc
          simpa [hc, withBackoff] using ih (a + 1)

theorem listInfixOf_append_right (n s t : List Char)
    (h : listInfixOf n t = true) : listInfixOf n (s ++ t) = true := by
  induction s with
  | nil => simpa
  | cons a as ih => simp [listInfixOf, ih]

theorem strIncludes_append (s t n : String) (h : strIncludes t n = true) :
    strIncludes (s ++ t) n = true := by
  unfold strIncludes at *
  show listInfixOf n.data (s ++ t).data = true
  rw [String.data_append]
  exact listInfixOf_append_right _ _ _ h

theorem ghLoop_4xx_step (env : Env) (oracle : Nat → FetchResult)
    (a r : Nat) (h : hasToken env = true) (code : Nat)
    (h0 : oracle a = .status code) (h4 : 400 ≤ code) (h5 : code < 500) :
    ghLoop env oracle a (r + 1) = (.ok none, 1, []) := by
  conv_lhs => unfold ghLoop
  rw [getAuthHeaders_ok_of_hasToken env h]
  simp [h0, h4, h5]

/-! ### Claims -/

/-- Claim C1 counterexample: with a credential present and every response
a 500, the waits actually performed are `[1000, 2000]` — not the
`base_delay * 2^attempt` for attempts 0, 1, 2 (1x, 2x, 4x) the claim
enumerates: no wait of `4 * base_delay` ever occurs, because no sleep
follows the final attempt. -/
theorem fetchIdentity_backoff_counterexample :
    (getGitHubUser ⟨some "t", none⟩ (fun _ => .status 500)).delays =
      [1000, 2000] ∧
    (getGitHubUser ⟨some "t", none⟩ (fun _ => .status 500)).delays ≠
      [1000 * 2 ^ 0, 1000 * 2 ^ 1, 1000 * 2 ^ 2] := by
  constructor
  · decide
  · decide

/-- Claim C1 (amended): with a credential present, a 4xx response on the
first attempt returns `none` after a single attempt with no waits; a
persistent 5xx response or thrown transport error is retried up to 3
attempts total, with a wait of `base_delay * 2^attempt` after attempt 0
and after attempt 1 (1x and 2x the base unit); no wait follows the final
attempt, so a 4x wait never occurs. -/
theorem fetchIdentity_retry_policy (env : Env) (oracle : Nat → FetchResult)
    (htok : hasToken env = true) :
    (∀ code, oracle 0 = .status code → 400 ≤ code → code < 500 →
      getGitHubUser env oracle = ⟨.ok none, 1, []⟩) ∧
    ((∀ i, retry5xx (oracle i) = true) →
      getGitHubUser env oracle = ⟨.ok none, 3, [1000, 2000]⟩) := by
  constructor
  · intro code h0 h4 h5
    rw [getGitHubUser_eq_loop env oracle htok]
    have e : ghLoop env oracle 0 3 = (.ok none, 1, []) :=
      ghLoop_4xx_step env oracle 0 2 htok code h0 h4 h5
    rw [e]
  · intro hr
    rw [getGitHubUser_eq_loop env oracle htok]
    have e0 : ghLoop env oracle 0 3 =
        withBackoff 0 2 1 (ghLoop env oracle (0 + 1) 2) :=
      ghLoop_retry_step env oracle 0 2 htok (hr 0)
    have e1 : ghLoop env oracle (0 + 1) 2 =
        withBackoff (0 + 1) 1 1 (ghLoop env oracle (0 + 1 + 1) 1) :=
      ghLoop_retry_step env oracle (0 + 1) 1 htok (hr (0 + 1))
    have e2 : ghLoop env oracle (0 + 1 + 1) 1 =
        withBackoff (0 + 1 + 1) 0 1 (ghLoop env oracle (0 + 1 + 1 + 1) 0) :=
      ghLoop_retry_step env oracle (0 + 1 + 1) 0 htok (hr (0 + 1 + 1))
    have e3 : ghLoop env oracle (0 + 1 + 1 + 1) 0 = (.ok none, 0, []) := rfl
    rw [e0, e1, e2, e3]
    simp [withBackoff, baseDelay]

/-- Witness for C1: a run hitting a 404 on the first attempt, and a run
whose every attempt throws. -/
theorem fetchIdentity_retry_policy_witness :
    getGitHubUser ⟨some "t", none⟩ (fun _ => .status 404) =
      ⟨.ok none, 1, []⟩ ∧
    getGitHubUser ⟨some "t", none⟩ (fun _ => .throw) =
      ⟨.ok none, 3, [1000, 2000]⟩ :=
  ⟨(fetchIdentity_retry_policy ⟨some "t", none⟩ (fun _ => .status 404)
      (by decide)).1 404 rfl (by decide) (by decide),
    (fetchIdentity_retry_policy ⟨some "t", none⟩ (fun _ => .throw)
      (by decide)).2 (fun _ => rfl)⟩

/-- Claim C4 counterexample: `getGitHubUser` CAN raise.  With a
credential present and the first response a 2xx whose body is not valid
JSON, the code returns the `response.json()` promise from inside `try`
without awaiting it, so its rejection escapes the `catch` and the whole
call rejects — it does not degrade to a returned `none`. -/
theorem fetchIdentity_rejects_on_malformed_json :
    (getGitHubUser ⟨some "t", none⟩
      (fun _ => .ok (.malformed "Unexpected end of JSON input"))).result =
      .error (.jsonError "Unexpected end of JSON input") ∧
    ¬ ∃ r, (getGitHubUser ⟨some "t", none⟩
      (fun _ => .ok (.malformed "Unexpected end of JSON input"))).result =
        .ok r := by
  have hres : (getGitHubUser ⟨some "t", none⟩
      (fun _ => .ok (.malformed "Unexpected end of JSON input"))).result =
      .error (.jsonError "Unexpected end of JSON input") := by decide
  refine ⟨hres, ?_⟩
  rintro ⟨r, hr⟩
  rw [hres] at hr
  exact Except.noConfusion hr

/-- Claim C4 (amended): with no credential present (unset or
empty-string variables) `getGitHubUser` returns `none` without any
network call; every 4xx, 5xx, or transport-level failure degrades to a
returned `none` rather than a thrown error; and the result is a normal
return (never a rejection) whenever no attempt yields a 2xx response
with a malformed JSON body — that un-awaited `response.json()` rejection
is the single raising path. -/
theorem fetchIdentity_raises_only_on_malformed_json (env : Env)
    (oracle : Nat → FetchResult) :
    (hasToken env = false → getGitHubUser env oracle = ⟨.ok none, 0, []⟩) ∧
    ((∀ i, notSuccess (oracle i) = true) →
      (getGitHubUser env oracle).result = .ok none) ∧
    ((∀ i, malformedOk (oracle i) = false) →
      ∃ r, (getGitHubUser env oracle).result = .ok r) := by
  refine ⟨fun h => ?_, fun h => ?_, fun h => ?_⟩
  · simp [getGitHubUser, h]
  · cases htok : hasToken env
    · simp [getGitHubUser, htok]
    · rw [getGitHubUser_eq_loop env oracle htok]
      simp [ghLoop_none_of_notSuccess env oracle h 3 0]
  · cases htok : hasToken env
    · exact ⟨none, by simp [getGitHubUser, htok]⟩
    · rw [getGitHubUser_eq_loop env oracle htok]
      exact ghLoop_ok_of_no_malformed env oracle h 3 0

/-- Witness for C4 (amended): no credential set, every response a 500
(no malformed 2xx body anywhere). -/
theorem fetchIdentity_raises_only_on_malformed_json_witness :
    getGitHubUser ⟨none, none⟩ (fun _ => .status 500) = ⟨.ok none, 0, []⟩ ∧
    (getGitHubUser ⟨none, none⟩ (fun _ => .status 500)).result = .ok none ∧
    (∃ r, (getGitHubUser ⟨none, none⟩
      (fun _ => .status 500)).result = .ok r) :=
  ⟨(fetchIdentity_raises_only_on_malformed_json ⟨none, none⟩
      (fun _ => .status 500)).1 (by decide),
    (fetchIdentity_raises_only_on_malformed_json ⟨none, none⟩
      (fun _ => .status 500)).2.1 (fun _ => rfl),
    (fetchIdentity_raises_only_on_malformed_json ⟨none, none⟩
      (fun _ => .status 500)).2.2 (fun _ => rfl)⟩

/-- Claim C8: `getToken` reads the primary credential variable
(`GITHUB_TOKEN`) first and the secondary (`GH_TOKEN`) as fallback: for
every environment in which both variables are set to non-empty values, it
returns the primary variable's value. -/
theorem getToken_prefers_primary (p s : String) (hp : p ≠ "") (_hs : s ≠ "") :
    getToken ⟨some p, some s⟩ = .ok p := by
  have hp' : p.isEmpty = false := by
    cases h : p.isEmpty
    · rfl
    · exact absurd ((String.isEmpty_iff _).mp h) hp
  unfold getToken tokenOr envTruthy
  simp [hp']

/-- Witness for C8: with primary `"A"` and secondary `"B"`, `getToken`
returns `"A"`. -/
theorem getToken_prefers_primary_witness :
    getToken ⟨some "A", some "B"⟩ = .ok "A" :=
  getToken_prefers_primary "A" "B" (by decide) (by decide)

/-- Claim C10: empty-string credentials behave as absent: with the primary
variable empty and the secondary non-empty, `getToken` returns the
secondary value and `hasToken` is true; with both variables empty strings,
or both unset, `getToken` raises `AuthError` and `hasToken` is false. -/
theorem emptyString_credentials_behave_as_absent (s : String) (hs : s ≠ "") :
    (getToken ⟨some "", some s⟩ = .ok s ∧ hasToken ⟨some "", some s⟩ = true) ∧
    (getToken ⟨some "", some ""⟩ = .error ⟨authMessage⟩ ∧
      hasToken ⟨some "", some ""⟩ = false) ∧
    (getToken ⟨none, none⟩ = .error ⟨authMessage⟩ ∧
      hasToken ⟨none, none⟩ = false) := by
  have hs' : s.isEmpty = false := by
    cases h : s.isEmpty
    · rfl
    · exact absurd ((String.isEmpty_iff _).mp h) hs
  have h0 : ("" : String).isEmpty = true := by decide
  refine ⟨⟨?_, ?_⟩, ⟨by decide, by decide⟩, ⟨by decide, by decide⟩⟩
  · unfold getToken tokenOr envTruthy
    simp [hs', h0]
  · unfold hasToken tokenOr envTruthy
    simp [hs', h0]

/-- Witness for C10: concrete instantiation at secondary value `"B"`. -/
theorem emptyString_credentials_behave_as_absent_witness :
    (getToken ⟨some "", some "B"⟩ = .ok "B" ∧
      hasToken ⟨some "", some "B"⟩ = true) ∧
    (getToken ⟨some "", some ""⟩ = .error ⟨authMessage⟩ ∧
      hasToken ⟨some "", some ""⟩ = false) ∧
    (getToken ⟨none, none⟩ = .error ⟨authMessage⟩ ∧
      hasToken ⟨none, none⟩ = false) :=
  emptyString_credentials_behave_as_absent "B" (by decide)

/-- Claim C9: `getAuthHeaders` returns exactly the single header
`Authorization: Bearer <token>` when a credential resolves, raises the
`AuthError` — whose message names both credential variables and the
token-creation URL — exactly when no credential resolves, and is the
image of `getToken` under the header constructor (so it propagates
`getToken`'s failure and raises no other error kind). -/
theorem getAuthHeaders_bearer_or_authError (env : Env) :
    getAuthHeaders env =
      (getToken env).map (fun t => [("Authorization", "Bearer " ++ t)]) ∧
    (hasToken env = true → ∃ t, getToken env = .ok t ∧
      getAuthHeaders env = .ok [("Authorization", "Bearer " ++ t)]) ∧
    (hasToken env = false →
      getAuthHeaders env = .error ⟨authMessage⟩ ∧
      strIncludes authMessage "GITHUB_TOKEN" = true ∧
      strIncludes authMessage "GH_TOKEN" = true ∧
      strIncludes authMessage "https://github.com/settings/tokens" = true) := by
  refine ⟨rfl, fun h => ?_, fun h => ?_⟩
  · exact ⟨(tokenOr env).getD "", getToken_ok_of_hasToken env h, by
      unfold getAuthHeaders
      rw [getToken_ok_of_hasToken env h]
      rfl⟩
  · refine ⟨by unfold getAuthHeaders; rw [getToken_error_of_not_hasToken env h]; rfl,
      by decide, by decide, by decide⟩

/-- Witness for C9: instantiated at an environment with a credential and
at one without. -/
theorem getAuthHeaders_bearer_or_authError_witness :
    (getAuthHeaders ⟨some "tok", none⟩ =
      (getToken ⟨some "tok", none⟩).map
        (fun t => [("Authorization", "Bearer " ++ t)]) ∧
      (hasToken ⟨some "tok", none⟩ = true → ∃ t,
        getToken ⟨some "tok", none⟩ = .ok t ∧
        getAuthHeaders ⟨some "tok", none⟩ =
          .ok [("Authorization", "Bearer " ++ t)]) ∧
      (hasToken ⟨some "tok", none⟩ = false →
        getAuthHeaders ⟨some "tok", none⟩ = .error ⟨authMessage⟩ ∧
        strIncludes authMessage "GITHUB_TOKEN" = true ∧
        strIncludes authMessage "GH_TOKEN" = true ∧
        strIncludes authMessage "https://github.com/settings/tokens" = true)) ∧
    (hasToken ⟨none, none⟩ = false →
      getAuthHeaders ⟨none, none⟩ = .error ⟨authMessage⟩ ∧
      strIncludes authMessage "GITHUB_TOKEN" = true ∧
      strIncludes authMessage "GH_TOKEN" = true ∧
      strIncludes authMessage "https://github.com/settings/tokens" = true) :=
  ⟨getAuthHeaders_bearer_or_authError ⟨some "tok", none⟩,
    (getAuthHeaders_bearer_or_authError ⟨none, none⟩).2.2⟩

/-- Claim C7 (spec-modelled: `src/lib/generator.ts` is absent from the
snapshot): `generate` fails, with a `Failure` outcome whose message is the
Credential Resolver's `AuthError` message verbatim and contains
"GitHub token required", and performs no network call, whenever no
credential is present. -/
theorem generate_fails_without_token (opts : GenerateOptions) (env : Env)
    (net : GenNetResult) (h : hasToken env = false) :
    generate opts env net = (.failure authMessage, 0) ∧
    strIncludes authMessage "GitHub token required" = true := by
  constructor
  · unfold generate
    rw [getToken_error_of_not_hasToken env h]
  · decide

/-- Witness for C7: a concrete run with no credential set. -/
theorem generate_fails_without_token_witness :
    generate
      ⟨⟨"app", none, "app.co", "a@b.co", some [], some [], none, none, none⟩,
        none, some "/tmp/out", false, none, false, false⟩
      ⟨none, none⟩ .binaryBody = (.failure authMessage, 0) ∧
    strIncludes authMessage "GitHub token required" = true :=
  generate_fails_without_token _ ⟨none, none⟩ .binaryBody (by decide)

set_option maxRecDepth 200000 in
/-- Claim C2 counterexample: a config whose domain is 254 characters of
`a` (no dot) exceeds 253 characters, yet `validateConfig` reports only the
domain-grammar error and no length error: the domain checks are an
`else if` chain, not independent. -/
theorem domain_length_counterexample :
    253 < (String.mk (List.replicate 254 'a')).length ∧
    "domain name too long (max 253 characters)" ∉
      (validateConfig ⟨"app", none, String.mk (List.replicate 254 'a'),
        "a@b.co", some [], some [], none, none, none⟩).errors ∧
    (validateConfig ⟨"app", none, String.mk (List.replicate 254 'a'),
        "a@b.co", some [], some [], none, none, none⟩).errors =
      ["domain must be a valid domain name (e.g., myapp.com, api.myapp.io)"] := by
  refine ⟨by decide, by decide, by decide⟩

/-- Claim C2 (amended): the domain checks are an `else if` chain, so a
domain contributes at most one error; for every config whose domain
passes the domain grammar and exceeds 253 characters, the length error is
reported. -/
theorem domain_length_error_when_grammar_passes (c : GrablinConfig)
    (hval : isValidDomain c.domain = true) (hlen : 253 < c.domain.length) :
    "domain name too long (max 253 characters)" ∈
      (validateConfig c).errors := by
  have hne : c.domain ≠ "" := by
    intro h
    rw [h] at hval
    exact absurd hval (by decide)
  have hd : domainErrors c = ["domain name too long (max 253 characters)"] := by
    unfold domainErrors
    simp [hne, hval, hlen]
  simp [validateConfig, hd]

set_option maxRecDepth 200000 in
/-- Witness for C2 (amended): a grammar-valid domain of four 63-character
labels and a 3-character TLD (259 characters in all). -/
theorem domain_length_error_when_grammar_passes_witness :
    "domain name too long (max 253 characters)" ∈
      (validateConfig ⟨"app", none,
        String.mk (List.replicate 63 'a' ++ '.' :: List.replicate 63 'a' ++
          '.' :: List.replicate 63 'a' ++ '.' :: List.replicate 63 'a' ++
          ['.', 'c', 'o', 'm']),
        "a@b.co", some [], some [], none, none, none⟩).errors :=
  domain_length_error_when_grammar_passes _ (by decide) (by decide)

/-- Claim C3 counterexample: a config with empty `modules` but an invalid
(empty) `projectName` has `valid = false`, so empty modules alone does
not make `validateConfig` return `valid = true`. -/
theorem empty_modules_counterexample :
    (⟨"", none, "app.co", "a@b.co", some [], some [], none, none,
      none⟩ : GrablinConfig).modules = some [] ∧
    (validateConfig ⟨"", none, "app.co", "a@b.co", some [], some [], none,
      none, none⟩).valid = false :=
  ⟨rfl, by decide⟩

/-- Claim C3 (amended): for every configuration whose `modules` is the
empty sequence, `validateConfig` emits a warning containing "empty" and
the empty-modules condition contributes no error: `valid` is true exactly
when the projectName, domain and owner checks all pass. -/
theorem empty_modules_warning (c : GrablinConfig)
    (h : c.modules = some []) :
    (∃ w ∈ (validateConfig c).warnings, strIncludes w "empty" = true) ∧
    (validateConfig c).valid =
      (projectNameErrors c ++ domainErrors c ++ ownerErrors c).isEmpty := by
  have hm : modulesChecks c =
      ([], ["No modules specified - project will be empty"]) := by
    unfold modulesChecks
    rw [h]
  refine ⟨⟨"No modules specified - project will be empty", ?_, by decide⟩, ?_⟩
  · simp [validateConfig, hm]
  · simp [validateConfig, hm]

/-- Witness for C3 (amended): an otherwise-valid config with empty
`modules`. -/
theorem empty_modules_warning_witness :
    (∃ w ∈ (validateConfig ⟨"app", none, "app.co", "a@b.co", some [],
      some [], none, none, none⟩).warnings, strIncludes w "empty" = true) ∧
    (validateConfig ⟨"app", none, "app.co", "a@b.co", some [], some [],
      none, none, none⟩).valid =
      (projectNameErrors ⟨"app", none, "app.co", "a@b.co", some [],
        some [], none, none, none⟩ ++
       domainErrors ⟨"app", none, "app.co", "a@b.co", some [], some [],
        none, none, none⟩ ++
       ownerErrors ⟨"app", none, "app.co", "a@b.co", some [], some [],
        none, none, none⟩).isEmpty :=
  empty_modules_warning _ rfl

/-- Claim C6: for every module whose `moduleId` contains `--` or ends in
`-`, `validateModule` returns at least one error mentioning `moduleId`,
whatever the module's other fields are. -/
theorem moduleId_hyphen_error (m : ModuleConfig) (i : Nat)
    (h : strIncludes m.moduleId "--" = true ∨
      jsEndsWith m.moduleId "-" = true) :
    ∃ e ∈ validateModule m i, strIncludes e "moduleId" = true := by
  by_cases h0 : m.moduleId = ""
  · rw [h0] at h
    exact absurd h (by decide)
  · cases hv : isValidModuleId m.moduleId
    · refine ⟨modulePrefix i ++
        ".moduleId must be lowercase, start with a letter, use hyphens only, and be 1-100 chars",
        ?_, strIncludes_append _ _ _ (by decide)⟩
      unfold validateModule
      simp [h0, hv]
    · have hcond : (jsEndsWith m.moduleId "-" ||
          strIncludes m.moduleId "--") = true := by
        rcases h with h | h <;> simp [h]
      refine ⟨modulePrefix i ++
        ".moduleId cannot end with hyphen or contain consecutive hyphens",
        ?_, strIncludes_append _ _ _ (by decide)⟩
      unfold validateModule
      simp [h0, hv, hcond]

/-- Witness for C6: the module id `bad--id` (contains `--`). -/
theorem moduleId_hyphen_error_witness :
    ∃ e ∈ validateModule ⟨"code", "react", "bad--id", none, none⟩ 0,
      strIncludes e "moduleId" = true :=
  moduleId_hyphen_error ⟨"code", "react", "bad--id", none, none⟩ 0
    (Or.inl (by decide))

/-- Claim C5: Config Store round trip: loading the file written by
`saveConfig c p` from the same `p` yields a document whose `version` is
`"1.0"` when `c.version` was unset and `c.version`'s value otherwise, and
whose `projectName` and `domain` equal `c`'s. -/
theorem config_store_roundtrip (c : GrablinConfig) (p : Option String)
    (fs : FileStore) :
    ∃ j, loadConfig p (saveConfig c p fs).1 = some j ∧
      lookupField j "version" = some (.str (c.version.getD "1.0")) ∧
      lookupField j "projectName" = some (.str c.projectName) ∧
      lookupField j "domain" = some (.str c.domain) := by
  obtain ⟨pn, de, dom, ow, mo, en, pr, vc, ve⟩ := c
  refine ⟨encodeConfigWithVersion ⟨pn, de, dom, ow, mo, en, pr, vc, ve⟩,
    ?_, rfl, rfl, ?_⟩
  · simp [loadConfig, saveConfig]
  · cases de <;> rfl

end Grablin
